import Mathlib

/-!
Verification of the layered device-configuration engine of
`src/firmware/device_config.h` (SensityDashboard firmware).

The header is a compile-time configuration: a flat catalogue of
`#define` defaults (the Field Registry), three optional preset blocks
(`PRESET_KITCHEN`, `PRESET_SECURITY`, `PRESET_ENVIRONMENTAL`) which
`#undef`/`#define` a subset of the defaults on top (the Overlays), and a
preprocessor validation block (`#error` presence checks for the WiFi and
server macros, `#warning` pin-conflict checks for the shared analog
input A0).

We embed the configuration as an association list from string keys to
values.  Floating-point literals of the header are exact decimal
constants; they are embedded as rationals, on which the only operation
performed anywhere is order comparison.
-/

namespace DeviceConfig

/-- A concrete configuration value: integer, decimal (the header's float
literals, all exact decimals, embedded as rationals), boolean, string, or
a pin reference such as `D4` or `A0`. -/
inductive Value where
  | i (n : Int)
  | q (x : Rat)
  | b (bv : Bool)
  | s (str : String)
  | pin (p : String)
  deriving DecidableEq, Repr

/-- A configuration (registry of defaults, overlay of overrides, or
resolved configuration) is an association list from keys to values. -/
abbrev Config := List (String × Value)

/-- First-match association lookup. -/
def lookup (cfg : Config) (k : String) : Option Value :=
  match cfg with
  | [] => none
  | (k₀, v₀) :: rest => if k₀ = k then some v₀ else lookup rest k

/-- Key presence, the embedding of the preprocessor's `defined(X)`. -/
def hasKey (cfg : Config) (k : String) : Bool :=
  (lookup cfg k).isSome

/-- Boolean read with preprocessor semantics: an absent or non-boolean
macro evaluates as false in an `#if` condition. -/
def getBool (cfg : Config) (k : String) : Bool :=
  match lookup cfg k with
  | some (Value.b bv) => bv
  | _ => false

/-- Numeric read: integer and decimal values compare as rationals. -/
def getNum (cfg : Config) (k : String) : Option Rat :=
  match lookup cfg k with
  | some (Value.i n) => some (n : Rat)
  | some (Value.q x) => some x
  | _ => none

/-- String read; a non-string value reads as `none`. -/
def getStr (cfg : Config) (k : String) : Option String :=
  match lookup cfg k with
  | some (Value.s str) => some str
  | _ => none

/-- The compiled-in Field Registry: every `#define` of
`src/firmware/device_config.h` outside the preset and validation blocks,
in the header's order. -/
def registry : Config :=
  [ ("device_id", Value.s "ESP8266_001"),
    ("device_name", Value.s "Kitchen Sensor Node"),
    ("device_location", Value.s "Kitchen"),
    ("firmware_version", Value.s "2.1.0"),
    ("wifi_ssid", Value.s "YOUR_WIFI_NETWORK"),
    ("wifi_password", Value.s "YOUR_WIFI_PASSWORD"),
    ("wifi_connect_timeout_sec", Value.i 30),
    ("wifi_reconnect_attempts", Value.i 3),
    ("wifi_reconnect_delay_ms", Value.i 5000),
    ("server_url", Value.s "https://your-iot-platform.com"),
    ("server_api_key", Value.s "your-api-key-here"),
    ("use_https", Value.b true),
    ("server_fingerprint", Value.s ""),
    ("heartbeat_interval_sec", Value.i 300),
    ("sensor_read_interval_ms", Value.i 5000),
    ("telemetry_batch_size", Value.i 5),
    ("device_armed", Value.b true),
    ("debug_mode", Value.b false),
    ("ota_enabled", Value.b true),
    ("sensor_dht_enabled", Value.b true),
    ("sensor_dht_pin", Value.pin "D4"),
    ("sensor_dht_type", Value.s "DHT22"),
    ("temp_threshold_min", Value.q (-10)),
    ("temp_threshold_max", Value.q 40),
    ("humidity_threshold_min", Value.q 20),
    ("humidity_threshold_max", Value.q 80),
    ("sensor_light_enabled", Value.b true),
    ("sensor_light_pin", Value.pin "A0"),
    ("light_threshold_min", Value.i 100),
    ("light_threshold_max", Value.i 900),
    ("light_calibration_offset", Value.q 0),
    ("light_calibration_multiplier", Value.q 1),
    ("sensor_motion_enabled", Value.b true),
    ("sensor_motion_pin", Value.pin "D2"),
    ("motion_threshold_min", Value.i 0),
    ("motion_threshold_max", Value.i 1),
    ("motion_detection_timeout_ms", Value.i 30000),
    ("sensor_distance_enabled", Value.b true),
    ("sensor_distance_trigger_pin", Value.pin "D5"),
    ("sensor_distance_echo_pin", Value.pin "D6"),
    ("distance_threshold_min", Value.q 5),
    ("distance_threshold_max", Value.q 200),
    ("sensor_sound_enabled", Value.b false),
    ("sensor_sound_pin", Value.pin "A0"),
    ("sound_threshold_min", Value.i 100),
    ("sound_threshold_max", Value.i 800),
    ("sensor_magnetic_enabled", Value.b false),
    ("sensor_magnetic_pin", Value.pin "D3"),
    ("magnetic_threshold_min", Value.i 0),
    ("magnetic_threshold_max", Value.i 1),
    ("sensor_vibration_enabled", Value.b false),
    ("sensor_vibration_pin", Value.pin "D7"),
    ("vibration_threshold_min", Value.i 0),
    ("vibration_threshold_max", Value.i 1),
    ("sensor_gas_enabled", Value.b false),
    ("sensor_gas_pin", Value.pin "A0"),
    ("gas_threshold_min", Value.i 100),
    ("gas_threshold_max", Value.i 600),
    ("watchdog_timeout_ms", Value.i 30000),
    ("config_eeprom_addr", Value.i 0),
    ("config_magic_number", Value.i 0x12345678),
    ("max_failed_connections", Value.i 5),
    ("use_json_compression", Value.b false),
    ("max_retry_attempts", Value.i 3),
    ("http_request_timeout_ms", Value.i 10000),
    ("deep_sleep_enabled", Value.b false),
    ("deep_sleep_duration_sec", Value.i 300),
    ("battery_monitoring_enabled", Value.b false),
    ("low_battery_threshold_v", Value.q (16/5)) ]

/-- Preset 1, `PRESET_KITCHEN` (`#undef`/`#define` block of the header):
partial override map applied on top of the registry defaults. -/
def presetKitchen : Config :=
  [ ("device_id", Value.s "KITCHEN_001"),
    ("device_name", Value.s "Kitchen Monitor"),
    ("device_location", Value.s "Kitchen"),
    ("sensor_motion_enabled", Value.b false),
    ("temp_threshold_max", Value.q 35) ]

/-- Preset 2, `PRESET_SECURITY`. -/
def presetSecurity : Config :=
  [ ("device_id", Value.s "SECURITY_001"),
    ("device_name", Value.s "Security Sensor"),
    ("device_location", Value.s "Front Door"),
    ("sensor_dht_enabled", Value.b false),
    ("sensor_magnetic_enabled", Value.b true),
    ("heartbeat_interval_sec", Value.i 60) ]

/-- Preset 3, `PRESET_ENVIRONMENTAL`. -/
def presetEnvironmental : Config :=
  [ ("device_id", Value.s "ENV_001"),
    ("device_name", Value.s "Environmental Monitor"),
    ("device_location", Value.s "Living Room"),
    ("sensor_motion_enabled", Value.b false),
    ("sensor_distance_enabled", Value.b false),
    ("sensor_gas_enabled", Value.b true) ]

/-- The Resolver: starting from the registry defaults in registry order,
each key keeps its default unless the overlay overrides it, in which case
the overlay value wins — the embedding of the preset blocks'
`#undef X` / `#define X v` pattern, which replaces the earlier default
unconditionally. -/
def resolve (reg : Config) (ov : Config) : Config :=
  reg.map (fun e => (e.1, (lookup ov e.1).getD e.2))

/-- The resolution selected by the shipped header: every `#define PRESET_…`
line is commented out, so no overlay is applied. -/
def defaultResolved : Config := resolve registry []

/-- Issue severity: a preprocessor `#error` blocks the build (fatal), a
`#warning` is advisory. -/
inductive Severity where
  | error
  | warning
  deriving DecidableEq, Repr

/-- Stable issue identifiers (the names the specification assigns to the
checks of the validation block and its generalisation). -/
inductive IssueCode where
  | requiredMissing
  | thresholdInverted
  | pinConflict
  deriving DecidableEq, Repr

/-- One validation issue: severity, stable code, message, affected keys. -/
structure Issue where
  severity : Severity
  code : IssueCode
  message : String
  keys : List String
  deriving DecidableEq, Repr

/-- The validation block of `src/firmware/device_config.h`
(lines 189–206), embedded check for check and in order:
`#error` when `WIFI_SSID` or `WIFI_PASSWORD` is undefined, `#error` when
`SERVER_URL` is undefined, `#warning` when the light and sound sensors
are both enabled (both on A0), `#warning` when the light and gas sensors
are both enabled (both on A0). -/
def validate (cfg : Config) : List Issue :=
  (if ¬ (hasKey cfg "wifi_ssid" ∧ hasKey cfg "wifi_password") then
    [⟨Severity.error, IssueCode.requiredMissing,
      "WiFi credentials must be configured in WIFI_SSID and WIFI_PASSWORD",
      ["wifi_ssid", "wifi_password"]⟩]
   else [])
  ++ (if ¬ hasKey cfg "server_url" then
    [⟨Severity.error, IssueCode.requiredMissing,
      "Server URL must be configured in SERVER_URL",
      ["server_url"]⟩]
   else [])
  ++ (if getBool cfg "sensor_light_enabled" && getBool cfg "sensor_sound_enabled" then
    [⟨Severity.warning, IssueCode.pinConflict,
      "Light and Sound sensors both use A0 - only one can be enabled",
      ["sensor_light_enabled", "sensor_sound_enabled"]⟩]
   else [])
  ++ (if getBool cfg "sensor_light_enabled" && getBool cfg "sensor_gas_enabled" then
    [⟨Severity.warning, IssueCode.pinConflict,
      "Light and Gas sensors both use A0 - only one can be enabled",
      ["sensor_light_enabled", "sensor_gas_enabled"]⟩]
   else [])

/-- The required fields of the specification's Validator: identity fields
(device id, device name) and connectivity fields (network name, network
credential, server address). -/
def requiredFields : List String :=
  ["device_id", "device_name", "wifi_ssid", "wifi_password", "server_url"]

/-- The paired threshold fields of the header: for each sensor, its
`…_THRESHOLD_MIN` and `…_THRESHOLD_MAX` macros. -/
def thresholdPairs : List (String × String) :=
  [ ("temp_threshold_min", "temp_threshold_max"),
    ("humidity_threshold_min", "humidity_threshold_max"),
    ("light_threshold_min", "light_threshold_max"),
    ("motion_threshold_min", "motion_threshold_max"),
    ("distance_threshold_min", "distance_threshold_max"),
    ("sound_threshold_min", "sound_threshold_max"),
    ("magnetic_threshold_min", "magnetic_threshold_max"),
    ("vibration_threshold_min", "vibration_threshold_max"),
    ("gas_threshold_min", "gas_threshold_max") ]

/-- The enable-flag/pin-key pairs of the sensors bound to the sole shared
analog input A0 (light, sound, gas — `SENSOR_*_PIN A0` in the header). -/
def a0Sensors : List (String × String) :=
  [ ("sensor_light_enabled", "sensor_light_pin"),
    ("sensor_sound_enabled", "sensor_sound_pin"),
    ("sensor_gas_enabled", "sensor_gas_pin") ]

/-- Whether the sensor described by `(enableKey, pinKey)` is enabled and
bound to pin A0 in `cfg`. -/
def enabledOnA0 (cfg : Config) (sensor : String × String) : Bool :=
  getBool cfg sensor.1 && (lookup cfg sensor.2 = some (Value.pin "A0"))

/-- Unordered pairs of distinct elements, in list order. -/
def distinctPairs {α : Type} : List α → List (α × α)
  | [] => []
  | x :: rest => rest.map (fun y => (x, y)) ++ distinctPairs rest

/-- Modelled from the spec: the reimplemented Validator of §4.4 is not
among the sources (only the preprocessor validation block is); its
required-presence check demands that each identity and connectivity field
be present and non-empty, with violation an error of code
`REQUIRED_MISSING`. -/
def requiredIssues (cfg : Config) : List Issue :=
  requiredFields.filterMap (fun k =>
    match getStr cfg k with
    | some str => if str = "" then
        some ⟨Severity.error, IssueCode.requiredMissing,
          "required field is empty", [k]⟩
      else none
    | none =>
        some ⟨Severity.error, IssueCode.requiredMissing,
          "required field is missing", [k]⟩)

/-- Modelled from the spec: the paired-threshold check of §4.4 is not
among the sources; for each paired threshold the resolved min must be
strictly less than the resolved max, with violation an error of code
`THRESHOLD_INVERTED`. -/
def thresholdIssues (cfg : Config) : List Issue :=
  thresholdPairs.filterMap (fun p =>
    match getNum cfg p.1, getNum cfg p.2 with
    | some lo, some hi =>
        if lo < hi then none
        else some ⟨Severity.error, IssueCode.thresholdInverted,
          "threshold min must be strictly less than max", [p.1, p.2]⟩
    | _, _ => none)

/-- Modelled from the spec: the universal pin-class conflict check of
§4.4 is not among the sources (the validation block checks only two of
the three A0 pairs); any two fields of the shared analog pin class that
are simultaneously enabled yield a warning of code `PIN_CONFLICT`. -/
def pinConflictIssues (cfg : Config) : List Issue :=
  (distinctPairs a0Sensors).filterMap (fun p =>
    if enabledOnA0 cfg p.1 && enabledOnA0 cfg p.2 then
      some ⟨Severity.warning, IssueCode.pinConflict,
        "two enabled sensors share pin A0", [p.1.1, p.2.1]⟩
    else none)

/-- Modelled from the spec: the full reimplemented Validator of §4.4
(required-presence, paired thresholds, pin-class conflicts), absent from
the sources, which hold only the preprocessor validation block. -/
def validateSpec (cfg : Config) : List Issue :=
  requiredIssues cfg ++ thresholdIssues cfg ++ pinConflictIssues cfg

/-- Error-severity issues of the full validator. -/
def errorsOf (cfg : Config) : List Issue :=
  (validateSpec cfg).filter (fun i => i.severity = Severity.error)

/-- A resolved configuration is activatable when validation yields zero
error-severity issues (warnings do not block). -/
def isActivatable (cfg : Config) : Bool :=
  decide (∀ i ∈ validateSpec cfg, i.severity ≠ Severity.error)

/-- Modelled from the spec: the Persisted Store Guard of §4.5 is not
among the sources — they declare only `CONFIG_EEPROM_ADDR` and
`CONFIG_MAGIC_NUMBER`.  A stored record carries a schema version, an
integrity tag, and the serialized configuration; the spec fixes no byte
layout for the latter ("variable-length, version-specific encoding"), so
the serialized form is modelled as the configuration's entry list. -/
structure PersistedRecord where
  version : Nat
  tag : Nat
  bytes : Config
  deriving DecidableEq, Repr

/-- The schema version written by the current firmware. -/
def schemaVersion : Nat := 1

/-- `CONFIG_MAGIC_NUMBER` of the header, the seed of the integrity tag. -/
def configMagicNumber : Nat := 0x12345678

/-- 32-bit string mix used by the integrity tag. -/
def hashString (acc : Nat) (str : String) : Nat :=
  str.foldl (fun a c => (a * 31 + c.toNat) % 2 ^ 32) acc

/-- 32-bit mix of one configuration value. -/
def hashValue (acc : Nat) : Value → Nat
  | Value.i n => (acc * 31 + 2 * n.natAbs + (if n < 0 then 1 else 0) + 3) % 2 ^ 32
  | Value.q x => (acc * 31 + 2 * x.num.natAbs + (if x.num < 0 then 1 else 0)
      + 7 * x.den + 5) % 2 ^ 32
  | Value.b bv => (acc * 31 + (if bv then 1 else 0) + 11) % 2 ^ 32
  | Value.s str => hashString (acc * 31 + 13) str
  | Value.pin p => hashString (acc * 31 + 17) p

/-- Modelled from the spec: the integrity tag, a checksum over the
serialized configuration seeded with the header's magic number. -/
def checksum (cfg : Config) : Nat :=
  cfg.foldl (fun acc e => hashValue (hashString (acc * 31 + 19) e.1) e.2)
    configMagicNumber

/-- Outcome of `load()`: a verified configuration, a corrupt record, or
no record at all. -/
inductive LoadResult where
  | valid (cfg : Config)
  | corrupt
  | absent
  deriving DecidableEq, Repr

/-- Modelled from the spec: `load()` of §4.5 is not among the sources.
It recomputes the integrity tag over the stored bytes and checks the
schema version; any mismatch yields `corrupt` — a total function, never a
fatal error, and the corrupt outcome carries no fabricated
configuration. -/
def load (store : Option PersistedRecord) : LoadResult :=
  match store with
  | none => LoadResult.absent
  | some r =>
      if r.version = schemaVersion ∧ r.tag = checksum r.bytes then
        LoadResult.valid r.bytes
      else LoadResult.corrupt

/-- `save()` failure: the precondition (an activatable configuration)
does not hold. -/
inductive SaveError where
  | precondition
  deriving DecidableEq, Repr

/-- Modelled from the spec: `save()` of §4.5 is not among the sources.
It accepts only an already-activatable configuration and writes schema
version, integrity tag, and serialized bytes as one unit. -/
def save (cfg : Config) : Except SaveError PersistedRecord :=
  if isActivatable cfg then
    Except.ok ⟨schemaVersion, checksum cfg, cfg⟩
  else Except.error SaveError.precondition

/-- Modelled from the spec: the caller's boot path — use the loaded
configuration when the record verifies, otherwise fall back to the
compiled-in resolution of registry and overlay. -/
def loadOrFallback (store : Option PersistedRecord) (ov : Config) : Config :=
  match load store with
  | LoadResult.valid c => c
  | _ => resolve registry ov

/-- Connectivity events reported by the external networking
collaborator. -/
inductive ConnEvent where
  | success
  | failure
  deriving DecidableEq, Repr

/-- `MAX_FAILED_CONNECTIONS` of the header: the restart ceiling. -/
def maxFailedConnections : Nat := 5

/-- Modelled from the spec: the guard's consecutive-failure counter of
§4.5 is not among the sources (they declare only the ceiling).  A
success resets the count; a failure increments it. -/
def stepConn (n : Nat) : ConnEvent → Nat
  | ConnEvent.success => 0
  | ConnEvent.failure => n + 1

/-- The counter after a whole event trace, starting from zero. -/
def failCountAfter (tr : List ConnEvent) : Nat :=
  tr.foldl stepConn 0

/-- Modelled from the spec: the restart-request signal, raised exactly
when the consecutive-failure count has reached the ceiling; the guard
only raises the signal, the reset itself belongs to the external
runtime. -/
def restartRequested (n : Nat) : Bool :=
  maxFailedConnections ≤ n

/-- Length of the trailing run of consecutive failures of a trace. -/
def trailingFailures (tr : List ConnEvent) : Nat :=
  (tr.reverse.takeWhile (fun e => e == ConnEvent.failure)).length

/-- Resolution of the environmental preset on top of the registry. -/
def envResolved : Config := resolve registry presetEnvironmental

/-- A resolution enabling the sound and gas sensors (both on A0) with
the light sensor disabled. -/
def soundGasConfig : Config :=
  resolve registry
    [ ("sensor_sound_enabled", Value.b true),
      ("sensor_gas_enabled", Value.b true),
      ("sensor_light_enabled", Value.b false) ]

/-- A resolution whose device id is the empty string. -/
def emptyIdConfig : Config :=
  resolve registry [("device_id", Value.s "")]

/-- A resolution with inverted temperature thresholds: min 40.0,
max -10.0. -/
def invertedConfig : Config :=
  resolve registry
    [ ("temp_threshold_min", Value.q 40),
      ("temp_threshold_max", Value.q (-10)) ]

/-- The record written for the default resolution, with its integrity
tag altered — the stored tag no longer matches a tag recomputed over the
stored bytes. -/
def tamperedRecord : PersistedRecord :=
  ⟨schemaVersion, checksum defaultResolved + 1, defaultResolved⟩

/-! ## Resolver lemmas -/

/-- Looking a key up in a resolution: the registry entry is kept, with
the overlay value replacing the default whenever the overlay binds the
key. -/
theorem lookup_resolve (reg ov : Config) (k : String) :
    lookup (resolve reg ov) k
      = (lookup reg k).map (fun d => (lookup ov k).getD d) := by
  induction reg with
  | nil => rfl
  | cons e rest ih =>
      by_cases h : e.1 = k
      · subst h
        simp [resolve, lookup]
      · simpa [resolve, lookup, h] using ih

/-- Resolution preserves the registry's key sequence exactly. -/
theorem resolve_keys (reg ov : Config) :
    (resolve reg ov).map Prod.fst = reg.map Prod.fst := by
  simp [resolve, List.map_map, Function.comp_def]

/-- C1: for every registry and overlay, a key bound by the overlay
resolves to the overlay's value, never the registry default; concretely,
the registry default `heartbeat_interval_sec = 300` is overridden to
`60` by the security preset, and the resolved value is `60`. -/
theorem c1_override_precedence :
    (∀ (reg ov : Config) (k : String) (v : Value),
      lookup ov k = some v → (lookup reg k).isSome = true →
      lookup (resolve reg ov) k = some v)
    ∧ lookup registry "heartbeat_interval_sec" = some (Value.i 300)
    ∧ lookup presetSecurity "heartbeat_interval_sec" = some (Value.i 60)
    ∧ lookup (resolve registry presetSecurity) "heartbeat_interval_sec"
        = some (Value.i 60) := by
  refine ⟨?_, rfl, rfl, rfl⟩
  intro reg ov k v hov hreg
  rw [lookup_resolve]
  rcases hr : lookup reg k with _ | d
  · rw [hr] at hreg
    simp at hreg
  · simp [hov]

/-- Witness for C1 at the concrete security scenario. -/
theorem c1_override_precedence_witness :
    lookup (resolve registry presetSecurity) "heartbeat_interval_sec"
      = some (Value.i 60) :=
  c1_override_precedence.1 registry presetSecurity "heartbeat_interval_sec"
    (Value.i 60) rfl (by decide)

/-- C7: resolution covers every registry key exactly once — the key
sequence of the resolved configuration equals the registry's, and for a
registry with distinct keys (as the compiled-in one, whose keys are
nodup) every key has exactly one resolved entry, for any overlay. -/
theorem c7_total_coverage :
    (∀ (reg ov : Config), (resolve reg ov).map Prod.fst = reg.map Prod.fst)
    ∧ (∀ (reg ov : Config) (k : String), (reg.map Prod.fst).Nodup →
        k ∈ reg.map Prod.fst →
        ((resolve reg ov).map Prod.fst).count k = 1)
    ∧ (registry.map Prod.fst).Nodup := by
  refine ⟨resolve_keys, ?_, by decide⟩
  intro reg ov k hnd hk
  rw [resolve_keys]
  exact List.count_eq_one_of_mem hnd hk

/-- Witness for C7 at the compiled-in registry and the environmental
preset. -/
theorem c7_total_coverage_witness :
    ((resolve registry presetEnvironmental).map Prod.fst).count
      "sensor_gas_enabled" = 1 :=
  c7_total_coverage.2.1 registry presetEnvironmental "sensor_gas_enabled"
    (by decide) (by decide)

/-- C2 counterexample: the sound and gas sensors are both enabled and
both bound to pin A0, yet the validation block of the header emits no
issue at all — the claimed universal `PIN_CONFLICT` warning for any two
same-pin-class fields does not materialise for this pair. -/
theorem c2_pin_conflict_counterexample :
    enabledOnA0 soundGasConfig ("sensor_sound_enabled", "sensor_sound_pin") = true
    ∧ enabledOnA0 soundGasConfig ("sensor_gas_enabled", "sensor_gas_pin") = true
    ∧ validate soundGasConfig = [] :=
  ⟨rfl, rfl, rfl⟩

/-- C2 (amended): the header's validation block raises a `PIN_CONFLICT`
warning exactly when the light sensor is enabled together with the sound
sensor or together with the gas sensor; the sound/gas pair is not
checked.  Every pin-conflict issue it raises is a warning (advisory,
never blocking). -/
theorem c2_pin_conflict_amended :
    ∀ cfg : Config,
      ((∃ i ∈ validate cfg, i.code = IssueCode.pinConflict) ↔
        (getBool cfg "sensor_light_enabled"
          && (getBool cfg "sensor_sound_enabled"
              || getBool cfg "sensor_gas_enabled")) = true)
      ∧ (∀ i ∈ validate cfg, i.code = IssueCode.pinConflict →
          i.severity = Severity.warning) := by
  intro cfg
  unfold validate
  rcases hl : getBool cfg "sensor_light_enabled" <;>
    rcases hs : getBool cfg "sensor_sound_enabled" <;>
    rcases hg : getBool cfg "sensor_gas_enabled" <;>
    constructor <;> split_ifs <;> simp_all

/-- Witness for the amended C2 at the environmental resolution, where
light and gas are both enabled. -/
theorem c2_pin_conflict_amended_witness :
    ∃ i ∈ validate envResolved, i.code = IssueCode.pinConflict :=
  (c2_pin_conflict_amended envResolved).1.mpr (by decide)

/-- C6 counterexample: the device id resolves to the empty string, yet
the validation block emits no issue — there is no `REQUIRED_MISSING`
error for an empty identity field, so the claimed five-field
non-emptiness check is absent. -/
theorem c6_required_counterexample :
    getStr emptyIdConfig "device_id" = some "" ∧ validate emptyIdConfig = [] :=
  ⟨rfl, rfl⟩

/-- C6 (amended): the header's presence checks are fatal errors exactly
when the network name, network credential, or server address macro is
undefined; a configuration with those three keys present produces no
error regardless of any value — device id and device name are never
checked, and empty strings pass.  Every error the block raises is a
required-presence error. -/
theorem c6_required_amended :
    ∀ cfg : Config,
      ((∃ i ∈ validate cfg, i.severity = Severity.error) ↔
        ¬ (hasKey cfg "wifi_ssid" = true ∧ hasKey cfg "wifi_password" = true
            ∧ hasKey cfg "server_url" = true))
      ∧ (∀ i ∈ validate cfg, i.severity = Severity.error →
          i.code = IssueCode.requiredMissing) := by
  intro cfg
  unfold validate
  constructor <;> split_ifs <;> simp_all

/-- Witness for the amended C6 at the empty-device-id resolution: its
three connectivity keys are present, hence no error. -/
theorem c6_required_amended_witness :
    ¬ ∃ i ∈ validate emptyIdConfig, i.severity = Severity.error :=
  fun h => (c6_required_amended emptyIdConfig).1.mp h (by decide)

/-! ## Store-guard lemmas -/

/-- A configuration with an error-severity issue is not activatable. -/
theorem isActivatable_eq_false_of_error {cfg : Config} {i : Issue}
    (hmem : i ∈ validateSpec cfg) (herr : i.severity = Severity.error) :
    isActivatable cfg = false := by
  have hnot : ¬ ∀ j ∈ validateSpec cfg, j.severity ≠ Severity.error :=
    fun hall => hall i hmem herr
  simpa [isActivatable] using hnot

/-- `save` refuses a non-activatable configuration. -/
theorem save_eq_error_of_not_activatable {cfg : Config}
    (h : isActivatable cfg = false) :
    save cfg = Except.error SaveError.precondition := by
  simp [save, h]

/-- C3: a resolved configuration with any paired threshold whose min is
not strictly below its max receives a `THRESHOLD_INVERTED` error naming
the pair, is not activatable, and `save` on it fails with a precondition
error; the concrete inverted-temperature resolution (`temp_min = 40.0`,
`temp_max = -10.0`) yields exactly that one error, and `save` rejects
it. -/
theorem c3_threshold_invariant :
    (∀ (cfg : Config) (p : String × String), p ∈ thresholdPairs →
      ∀ lo hi : Rat, getNum cfg p.1 = some lo → getNum cfg p.2 = some hi →
      ¬ lo < hi →
      (∃ i ∈ validateSpec cfg, i.code = IssueCode.thresholdInverted
          ∧ i.severity = Severity.error ∧ i.keys = [p.1, p.2])
      ∧ isActivatable cfg = false
      ∧ save cfg = Except.error SaveError.precondition)
    ∧ validateSpec invertedConfig
        = [⟨Severity.error, IssueCode.thresholdInverted,
            "threshold min must be strictly less than max",
            ["temp_threshold_min", "temp_threshold_max"]⟩]
    ∧ save invertedConfig = Except.error SaveError.precondition := by
  refine ⟨?_, rfl, rfl⟩
  intro cfg p hp lo hi hlo hhi hnlt
  have hmem : (⟨Severity.error, IssueCode.thresholdInverted,
      "threshold min must be strictly less than max", [p.1, p.2]⟩ : Issue)
      ∈ thresholdIssues cfg := by
    rw [thresholdIssues, List.mem_filterMap]
    exact ⟨p, hp, by simp [hlo, hhi, hnlt]⟩
  have hmem2 : (⟨Severity.error, IssueCode.thresholdInverted,
      "threshold min must be strictly less than max", [p.1, p.2]⟩ : Issue)
      ∈ validateSpec cfg := by
    rw [validateSpec]
    exact List.mem_append_left _ (List.mem_append_right _ hmem)
  have hact : isActivatable cfg = false :=
    isActivatable_eq_false_of_error hmem2 rfl
  exact ⟨⟨_, hmem2, rfl, rfl, rfl⟩, hact,
    save_eq_error_of_not_activatable hact⟩

/-- Witness for C3 at the inverted-temperature resolution. -/
theorem c3_threshold_invariant_witness :
    (∃ i ∈ validateSpec invertedConfig,
        i.code = IssueCode.thresholdInverted ∧ i.severity = Severity.error
        ∧ i.keys = ["temp_threshold_min", "temp_threshold_max"])
    ∧ isActivatable invertedConfig = false
    ∧ save invertedConfig = Except.error SaveError.precondition :=
  c3_threshold_invariant.1 invertedConfig
    ("temp_threshold_min", "temp_threshold_max") (by decide)
    40 (-10) rfl rfl (by norm_num)

/-- C4: any stored record whose integrity tag differs from the tag
recomputed over its bytes, or whose schema version is unknown, loads as
`corrupt` (never a fabricated configuration, never a fatal error — the
outcome is total), the caller's fallback re-derives exactly
`resolve registry ov`, and the compiled-in resolutions (no overlay and
each preset) are all activatable. -/
theorem c4_corrupt_load :
    (∀ r : PersistedRecord,
      r.tag ≠ checksum r.bytes ∨ r.version ≠ schemaVersion →
      load (some r) = LoadResult.corrupt
      ∧ ∀ ov : Config, loadOrFallback (some r) ov = resolve registry ov)
    ∧ isActivatable (resolve registry []) = true
    ∧ isActivatable (resolve registry presetKitchen) = true
    ∧ isActivatable (resolve registry presetSecurity) = true
    ∧ isActivatable (resolve registry presetEnvironmental) = true := by
  refine ⟨?_, rfl, rfl, rfl, rfl⟩
  intro r h
  have hcond : ¬ (r.version = schemaVersion ∧ r.tag = checksum r.bytes) := by
    tauto
  have hload : load (some r) = LoadResult.corrupt := by
    simp only [load]
    exact if_neg hcond
  exact ⟨hload, fun ov => by simp [loadOrFallback, hload]⟩

/-- Witness for C4 at the tampered record (tag off by one). -/
theorem c4_corrupt_load_witness :
    load (some tamperedRecord) = LoadResult.corrupt
    ∧ loadOrFallback (some tamperedRecord) [] = resolve registry [] :=
  have h := c4_corrupt_load.1 tamperedRecord (Or.inl (by simp [tamperedRecord]))
  ⟨h.1, h.2 []⟩

/-- C5: saving an activatable configuration writes schema version,
integrity tag and bytes as one record, and loading that record with no
corruption injected returns exactly the saved configuration. -/
theorem c5_round_trip :
    ∀ cfg : Config, isActivatable cfg = true →
      save cfg = Except.ok ⟨schemaVersion, checksum cfg, cfg⟩
      ∧ load (some ⟨schemaVersion, checksum cfg, cfg⟩) = LoadResult.valid cfg := by
  intro cfg h
  exact ⟨by simp [save, h], by simp [load]⟩

/-- Witness for C5 at the default resolution. -/
theorem c5_round_trip_witness :
    save defaultResolved
      = Except.ok ⟨schemaVersion, checksum defaultResolved, defaultResolved⟩
    ∧ load (some ⟨schemaVersion, checksum defaultResolved, defaultResolved⟩)
        = LoadResult.valid defaultResolved :=
  c5_round_trip defaultResolved (by decide)

/-! ## Failure-counter lemmas -/

/-- The counter driven by `stepConn` equals the length of the trace's
trailing run of consecutive failures. -/
theorem failCountAfter_eq_trailingFailures (tr : List ConnEvent) :
    failCountAfter tr = trailingFailures tr := by
  induction tr using List.reverseRecOn with
  | nil => rfl
  | append_singleton tr e ih =>
      cases e with
      | success =>
          simp [failCountAfter, trailingFailures, List.foldl_append, stepConn,
            List.takeWhile_cons]
      | failure =>
          simp [failCountAfter, trailingFailures, List.foldl_append, stepConn,
            List.takeWhile_cons] at ih ⊢
          omega

/-- C8: the restart-request signal is raised exactly when the
consecutive-connectivity-failure count — reset by a success, incremented
by a failure — has reached the compiled-in ceiling
`MAX_FAILED_CONNECTIONS = 5`, and never while the trailing failure run
is shorter; the signal is only an output of the guard, the reset itself
belongs to the external runtime. -/
theorem c8_restart_signal :
    (∀ tr : List ConnEvent,
      restartRequested (failCountAfter tr) = true ↔
        maxFailedConnections ≤ trailingFailures tr)
    ∧ (∀ tr : List ConnEvent, trailingFailures tr < maxFailedConnections →
        restartRequested (failCountAfter tr) = false)
    ∧ maxFailedConnections = 5 := by
  have hiff : ∀ tr : List ConnEvent,
      restartRequested (failCountAfter tr) = true ↔
        maxFailedConnections ≤ trailingFailures tr := by
    intro tr
    rw [failCountAfter_eq_trailingFailures]
    simp [restartRequested]
  refine ⟨hiff, ?_, rfl⟩
  intro tr hlt
  rw [failCountAfter_eq_trailingFailures]
  simpa [restartRequested] using Nat.not_le_of_lt hlt

/-- Witness for C8: four consecutive failures do not raise the signal,
five do. -/
theorem c8_restart_signal_witness :
    restartRequested (failCountAfter (List.replicate 4 ConnEvent.failure)) = false
    ∧ restartRequested (failCountAfter (List.replicate 5 ConnEvent.failure)) = true :=
  ⟨c8_restart_signal.2.1 (List.replicate 4 ConnEvent.failure) (by decide),
   (c8_restart_signal.1 (List.replicate 5 ConnEvent.failure)).mpr (by decide)⟩

/-- C9: the compiled-in default resolution (no preset selected) is
activatable with zero errors and zero warnings under both the full
validator and the header's validation block; of the three A0-bound
sensors only the light sensor is enabled. -/
theorem c9_default_resolution_clean :
    validateSpec defaultResolved = []
    ∧ validate defaultResolved = []
    ∧ isActivatable defaultResolved = true
    ∧ getBool defaultResolved "sensor_light_enabled" = true
    ∧ getBool defaultResolved "sensor_sound_enabled" = false
    ∧ getBool defaultResolved "sensor_gas_enabled" = false :=
  ⟨rfl, rfl, rfl, rfl, rfl, rfl⟩

/-- C10: the environmental preset enables the gas sensor while leaving
the light sensor enabled, both bound to A0; its resolution receives
exactly one `PIN_CONFLICT` warning naming both fields (from the header's
validation block, and likewise from the full validator), a conflict
absent from the default resolution, and it remains activatable because
the issue is a warning. -/
theorem c10_environmental_conflict :
    getBool envResolved "sensor_light_enabled" = true
    ∧ getBool envResolved "sensor_gas_enabled" = true
    ∧ lookup envResolved "sensor_light_pin" = some (Value.pin "A0")
    ∧ lookup envResolved "sensor_gas_pin" = some (Value.pin "A0")
    ∧ validate envResolved
        = [⟨Severity.warning, IssueCode.pinConflict,
            "Light and Gas sensors both use A0 - only one can be enabled",
            ["sensor_light_enabled", "sensor_gas_enabled"]⟩]
    ∧ validateSpec envResolved
        = [⟨Severity.warning, IssueCode.pinConflict,
            "two enabled sensors share pin A0",
            ["sensor_light_enabled", "sensor_gas_enabled"]⟩]
    ∧ validate defaultResolved = []
    ∧ isActivatable envResolved = true :=
  ⟨rfl, rfl, rfl, rfl, rfl, rfl, rfl, rfl⟩

end DeviceConfig
